import Mathlib

/-!
# Market Sequencer — DNA visualiser core, shallow embedding

A shallow embedding of the two core subsystems of the
`dna_visualiser` front end:

* the segment data model (`validateData`, `filterSegmentsByType`,
  `calculateStats`, `loadFromText`) from
  `src/dna_visualiser/js/dna-visualizer.js`, modelled over exact
  rationals (`ℚ`) so that the arithmetic is decidable;
* the procedural helix geometry generator (`createDNAHelix`) from the
  same file, modelled over the reals (`ℝ`);
* the orbit camera per-tick update (`OrbitControls.update`) from
  `src/dna_visualiser/js/orbit-controls.js`, modelled over the reals.

JavaScript numbers are embedded as `ℚ` where the code only does field
arithmetic and comparisons, and as `ℝ` where the code calls
transcendental functions (`Math.cos`, `Math.sin`, `Math.acos`,
`Math.atan2`, `Math.sqrt`, `Math.log`).  Logging (`debugLog`) is pure
diagnostics and is dropped.  `Math.random()` only feeds the pulse
animation parameters `pulseSpeed` and `phase`, which the spec calls out
as assigned-but-not-load-bearing; those two fields are omitted from the
pulse model.
-/

/-- A raw record of the parsed JSON array, before validation
(`dna-visualizer.js`, consumed by `validateData`).  Every field of the
segment schema may be absent (`none` plays the role of JavaScript
`undefined`).  Numeric fields are embedded as `ℚ`, index fields as `ℤ`,
time fields as opaque strings. -/
structure RawSegment where
  segment_type : Option String
  start_index : Option ℤ
  end_index : Option ℤ
  start_price : Option ℚ
  end_price : Option ℚ
  pct_change : Option ℚ
  start_time : Option String := none
  end_time : Option String := none
deriving DecidableEq, Repr

/-- The value produced by `JSON.parse` as seen by `validateData`:
either an array of records, or any non-array value (`Array.isArray`
fails).  Elements that are not records at all are outside this model;
the claims only concern record elements. -/
inductive JSInput where
  | arr (items : List RawSegment)
  | nonArray
deriving DecidableEq, Repr

/-- JavaScript truthiness of a possibly-absent string value, as used by
the guard `segment.segment_type && …`: `undefined` is falsy, and so is
the empty string `""`. -/
def truthyString : Option String → Bool
  | none => false
  | some s => s ≠ ""

/-- The element-wise predicate of `validateData`
(`dna-visualizer.js` lines 85–92): `segment.segment_type` is tested for
*truthiness*, the five remaining required fields are tested with
`!== undefined` (presence). -/
def isValidSegment (segment : RawSegment) : Bool :=
  truthyString segment.segment_type &&
  segment.start_index.isSome &&
  segment.end_index.isSome &&
  segment.start_price.isSome &&
  segment.end_price.isSome &&
  segment.pct_change.isSome

/-- All six required fields are *present* (JavaScript: not `undefined`).
This is the spec's wording of the validation predicate (§3 invariant:
"valid only if … are all present"); it differs from `isValidSegment` on
records whose `segment_type` is present but falsy (the empty string). -/
def allRequiredFieldsPresent (segment : RawSegment) : Bool :=
  segment.segment_type.isSome &&
  segment.start_index.isSome &&
  segment.end_index.isSome &&
  segment.start_price.isSome &&
  segment.end_price.isSome &&
  segment.pct_change.isSome

/-- `validateData` (`dna-visualizer.js` lines 73–101): a non-array
input yields `[]`; an array is filtered element-wise by
`isValidSegment`. -/
def validateData : JSInput → List RawSegment
  | JSInput.nonArray => []
  | JSInput.arr items => items.filter isValidSegment

/-- `filterSegmentsByType` (`dna-visualizer.js` lines 63–68): identity
when the requested type is `"all"`, otherwise keep exactly the segments
whose `segment_type` strictly equals the requested type (in JavaScript
`undefined === t` is false for a string `t`, hence the `some` match). -/
def filterSegmentsByType (data : List RawSegment) (type : String) : List RawSegment :=
  if type = "all" then data
  else data.filter (fun segment => segment.segment_type = some type)

/-- A validated segment (spec §3): the record shape that reaches the
geometry generator and the statistics, with every required field
present. -/
structure Segment where
  segment_type : String
  start_index : ℤ
  end_index : ℤ
  start_price : ℚ
  end_price : ℚ
  pct_change : ℚ
  start_time : String := ""
  end_time : String := ""
deriving DecidableEq, Repr

/-- Two decimal digits with leading zero, the fractional part of
`Number.prototype.toFixed(2)`. -/
def pad2 (n : ℕ) : String :=
  if n < 10 then "0" ++ toString n else toString n

/-- `x.toFixed(2)` on an exact rational: ECMAScript formats the
magnitude with the nearest integer count of hundredths (ties upward)
and prefixes the sign. -/
def toFixed2 (q : ℚ) : String :=
  let n : ℕ := (round (|q| * 100)).toNat
  (if q < 0 then "-" else "") ++ toString (n / 100) ++ "." ++ pad2 (n % 100)

/-- The record returned by `calculateStats`; `typeCounts` is the
JavaScript tally object, embedded as a total count function (absent key
reads as 0, matching `typeCounts[type] || 0`). -/
structure Stats where
  totalSegments : ℕ
  typeCounts : String → ℕ
  volatility : String

/-- One step of the tally loop `typeCounts[t] = (typeCounts[t] || 0) + 1`. -/
def bumpCount (counts : String → ℕ) (t : String) : String → ℕ :=
  fun s => if s = t then counts t + 1 else counts s

/-- `calculateStats` (`dna-visualizer.js` lines 457–477).  The first
argument is the explicit `data` parameter (default `null` = `none`),
the second the stored `lastLoadedData`; `data || this.lastLoadedData`
falls back only when `data` is `null` (an empty array is truthy in
JavaScript and is kept).  Empty data yields `null` (`none`). -/
def calculateStats (data : Option (List Segment)) (lastLoadedData : Option (List Segment)) :
    Option Stats :=
  let dataToUse := match data with
    | some d => some d
    | none => lastLoadedData
  match dataToUse with
  | none => none
  | some d =>
    if d.length = 0 then none
    else
      let totalSegments := d.length
      let typeCounts := d.foldl (fun counts segment => bumpCount counts segment.segment_type)
        (fun _ => 0)
      let totalAbsChange := (d.map (fun segment => |segment.pct_change|)).sum
      let volatility := toFixed2 (totalAbsChange / totalSegments)
      some { totalSegments := totalSegments
             typeCounts := typeCounts
             volatility := volatility ++ "%" }

/-- The façade state that the list-level claims depend on
(`DNAVisualizer` constructor, lines 6–19): the selected type filter and
the last validated dataset. -/
structure VisState where
  selectedType : String
  lastLoadedData : Option (List RawSegment)
deriving DecidableEq, Repr

/-- Constructor defaults (`dna-visualizer.js` lines 9–10):
`selectedType` starts as `"optimal"`, no data loaded. -/
def initState : VisState :=
  { selectedType := "optimal", lastLoadedData := none }

/-- `loadFromText` (`dna-visualizer.js` lines 375–414) at the
data-flow level.  The input is the result of `JSON.parse` (`none` when
parsing threw).  The second component of the result is the segment list
handed to `rebuildDNA` — `none` means the function returned `null`
without rebuilding, so the prior visualization is retained. -/
def loadFromText (st : VisState) (parsed : Option JSInput) :
    VisState × Option (List RawSegment) :=
  match parsed with
  | none => (st, none)
  | some raw =>
    let data := validateData raw
    if data.length = 0 then (st, none)
    else
      let st' := { st with lastLoadedData := some data }
      let filteredData := filterSegmentsByType data st.selectedType
      (st', some filteredData)

/-- `HelixConfiguration` (`dna-visualizer.js` lines 13–19).  Turn and
sample counts are integers, the remaining fields are numbers. -/
structure HelixConfig where
  helixTurns : ℕ
  helixRadius : ℝ
  backboneThickness : ℝ
  height : ℝ
  pointsPerTurn : ℕ

/-- The constructor's configuration defaults. -/
def defaultConfig : HelixConfig :=
  { helixTurns := 15, helixRadius := 10, backboneThickness := 1.2,
    height := 200, pointsPerTurn := 32 }

/-- `THREE.Vector3`, embedded as a triple of reals. -/
@[ext]
structure Vec3 where
  x : ℝ
  y : ℝ
  z : ℝ

instance : Add Vec3 := ⟨fun a b => ⟨a.x + b.x, a.y + b.y, a.z + b.z⟩⟩

instance : Sub Vec3 := ⟨fun a b => ⟨a.x - b.x, a.y - b.y, a.z - b.z⟩⟩

theorem Vec3.add_def (a b : Vec3) : a + b = ⟨a.x + b.x, a.y + b.y, a.z + b.z⟩ := rfl

theorem Vec3.sub_def (a b : Vec3) : a - b = ⟨a.x - b.x, a.y - b.y, a.z - b.z⟩ := rfl

/-- `this.colorMap[type] || 0xd7e5ff` (`dna-visualizer.js` lines 22–25
and 219): the two recognised tags, with a fallback colour for unknown
types. -/
def colorMap (type : String) : ℕ :=
  if type = "negative" then 0xE55C7A
  else if type = "optimal" then 0x00E2C5
  else 0xd7e5ff

/-- One rung connector: the `CylinderGeometry` parameters and the
material/transform data that the rung loop computes
(`dna-visualizer.js` lines 196–277).  The look-at orientation and the
tooltip string are presentational and omitted. -/
structure Rung where
  topRadius : ℝ
  bottomRadius : ℝ
  cylHeight : ℝ
  emissiveIntensity : ℝ
  color : ℕ
  position : Vec3

/-- One pulse-effect sphere (`dna-visualizer.js` lines 280–319): the
`SphereGeometry` radius, material data and the deterministic animation
parameters.  `pulseSpeed` and `phase` are drawn from `Math.random()`
and omitted (the spec marks them as non-load-bearing). -/
structure Pulse where
  radius : ℝ
  initialScale : ℝ
  maxScale : ℝ
  opacity : ℝ
  color : ℕ
  position : Vec3

/-- One backbone strand: the sampled control points of the
`CatmullRomCurve3` and the `TubeGeometry` parameters
(`dna-visualizer.js` lines 161–193). -/
structure Backbone where
  points : List Vec3
  tubularSegments : ℕ
  radialSegments : ℕ
  tubeRadius : ℝ

/-- The `THREE.Group` returned by `createDNAHelix`, with its children
sorted by kind: the backbone tubes, the per-segment rungs (in segment
order) and, for each segment, its attached pulse spheres (in
attachment order). -/
structure HelixGroup where
  backbones : List Backbone
  rungs : List Rung
  segmentPulses : List (List Pulse)
  position : Vec3
  rotationY : ℝ

/-- The body of the rung loop (`dna-visualizer.js` lines 196–257) for
segment index `i` of `numSegments`.  `parseInt`/`parseFloat` are the
identity on the already-numeric fields.  The vertical extent `200` is
the local `height` constant of `createDNAHelix` (line 119). -/
noncomputable def buildRung (radius : ℝ) (turns numSegments i : ℕ) (segment : Segment) : Rung :=
  let startIdx := segment.start_index
  let endIdx := segment.end_index
  let t : ℝ := (i : ℝ) / (numSegments : ℝ)
  let angle : ℝ := 2 * Real.pi * (turns : ℝ) * t
  let y : ℝ := 200 * (0.5 - t)
  let x1 := radius * Real.cos angle
  let z1 := radius * Real.sin angle
  let x2 := radius * Real.cos (angle + Real.pi)
  let z2 := radius * Real.sin (angle + Real.pi)
  let color := colorMap segment.segment_type
  let segmentLength : ℤ := max 1 (endIdx - startIdx)
  let scaleFactor : ℝ := min 1.5 (Real.log (segmentLength : ℝ) / Real.log 10 + 0.5)
  let absPct : ℚ := |segment.pct_change|
  let baseWidth : ℝ := 0.3 + min 0.5 ((absPct : ℝ) * 0.03)
  { topRadius := baseWidth * scaleFactor
    bottomRadius := baseWidth * scaleFactor
    cylHeight := radius * 2
    emissiveIntensity := min 0.4 ((absPct : ℝ) * 0.03 + 0.1)
    color := color
    position := ⟨(x1 + x2) * 0.5, (y + y) * 0.5, (z1 + z2) * 0.5⟩ }

/-- The pulse-effect block of the rung loop (`dna-visualizer.js` lines
280–320): one sphere when `|pctChange| > 5`, a second outer sphere when
additionally `|pctChange| > 8`.  The comparisons are on the exact
segment value. -/
noncomputable def buildPulses (segment : Segment) (position : Vec3) : List Pulse :=
  let absPct : ℚ := |segment.pct_change|
  let color := colorMap segment.segment_type
  if 5 < absPct then
    let pulse : Pulse :=
      { radius := 0.8 + (absPct : ℝ) * 0.05, initialScale := 0.5,
        maxScale := 1.0 + (absPct : ℝ) * 0.02, opacity := 0.2,
        color := color, position := position }
    if 8 < absPct then
      let outerPulse : Pulse :=
        { radius := 1.0 + (absPct : ℝ) * 0.08, initialScale := 0.7,
          maxScale := 1.2 + (absPct : ℝ) * 0.03, opacity := 0.1,
          color := color, position := position }
      [pulse, outerPulse]
    else [pulse]
  else []

/-- `createDNAHelix` (`dna-visualizer.js` lines 106–331).  Empty data
returns the bare group (lines 112–115), before any backbone is added
and before the final `rotation.y = π/6`.  In the non-empty branch, the
local constants `height = 200` (line 119) and `pointsPerTurn = 32`
(line 130) shadow the configuration fields of the same name; only
`helixRadius`, `helixTurns` and `backboneThickness` are read from the
configuration (lines 117–121). -/
noncomputable def createDNAHelix (config : HelixConfig) (data : List Segment) : HelixGroup :=
  if data.length = 0 then
    { backbones := [], rungs := [], segmentPulses := [],
      position := ⟨0, 0, 0⟩, rotationY := 0 }
  else
    let radius := config.helixRadius
    let turns := config.helixTurns
    let height : ℝ := 200
    let backboneThickness := config.backboneThickness
    let pointsPerTurn : ℕ := 32
    let totalPoints := turns * pointsPerTurn
    let backbone1Points := (List.range (totalPoints + 1)).map (fun (i : ℕ) =>
      let t : ℝ := (i : ℝ) / (totalPoints : ℝ)
      let y := height * (0.5 - t)
      let angle := 2 * Real.pi * (turns : ℝ) * t
      (⟨radius * Real.cos angle, y, radius * Real.sin angle⟩ : Vec3))
    let backbone2Points := (List.range (totalPoints + 1)).map (fun (i : ℕ) =>
      let t : ℝ := (i : ℝ) / (totalPoints : ℝ)
      let y := height * (0.5 - t)
      let angle := 2 * Real.pi * (turns : ℝ) * t
      (⟨radius * Real.cos (angle + Real.pi), y,
        radius * Real.sin (angle + Real.pi)⟩ : Vec3))
    let numSegments := data.length
    let rungs := data.enum.map (fun p => buildRung radius turns numSegments p.1 p.2)
    let segmentPulses := data.enum.map (fun p =>
      buildPulses p.2 (buildRung radius turns numSegments p.1 p.2).position)
    { backbones :=
        [ { points := backbone1Points, tubularSegments := totalPoints,
            radialSegments := 8, tubeRadius := backboneThickness },
          { points := backbone2Points, tubularSegments := totalPoints,
            radialSegments := 8, tubeRadius := backboneThickness } ]
      rungs := rungs
      segmentPulses := segmentPulses
      position := ⟨0, 0, 0⟩
      rotationY := Real.pi / 6 }

/-- `Math.max(lo, Math.min(hi, x))`, the clamp shape used by both the
polar-angle restriction and `Spherical.makeSafe`. -/
noncomputable def clampR (x lo hi : ℝ) : ℝ := max lo (min hi x)

/-- `Vector3.length()`. -/
noncomputable def sphRadius (v : Vec3) : ℝ :=
  Real.sqrt (v.x * v.x + v.y * v.y + v.z * v.z)

/-- `Math.atan2 y x`, embedded as the argument of the complex number
`x + y·i` (same range `(−π, π]`, same value `0` at the origin). -/
noncomputable def atan2 (y x : ℝ) : ℝ := Complex.arg ⟨x, y⟩

/-- The azimuth angle of `THREE.Spherical.setFromVector3`:
`atan2(x, z)`, and `0` for the zero vector. -/
noncomputable def sphTheta (v : Vec3) : ℝ :=
  if sphRadius v = 0 then 0 else atan2 v.x v.z

/-- The polar angle of `THREE.Spherical.setFromVector3`:
`acos(clamp(y / radius, −1, 1))`, and `0` for the zero vector. -/
noncomputable def sphPhi (v : Vec3) : ℝ :=
  if sphRadius v = 0 then 0 else Real.arccos (clampR (v.y / sphRadius v) (-1) 1)

/-- `Vector3.setFromSpherical`: `x = r·sin φ·sin θ`, `y = r·cos φ`,
`z = r·sin φ·cos θ`. -/
noncomputable def vecFromSpherical (radius phi theta : ℝ) : Vec3 :=
  ⟨radius * Real.sin phi * Real.sin theta,
   radius * Real.cos phi,
   radius * Real.sin phi * Real.cos theta⟩

/-- `OrbitControls.update` (`orbit-controls.js` lines 75–122) as a
function of one tick's inputs: the camera position, the target, the
accumulated spherical deltas, the accumulated zoom scale and pan
offset, and the auto-rotate injection (lines 79–82).  Returns the new
`(position, target)`; the accumulator reset (lines 117–119) is implicit
in passing fresh deltas on the next tick. -/
noncomputable def orbitUpdate (autoRotate stateIsNone : Bool) (autoRotateSpeed : ℝ)
    (pos target : Vec3) (deltaTheta deltaPhi scale : ℝ) (panOffset : Vec3) :
    Vec3 × Vec3 :=
  let deltaTheta := if autoRotate && stateIsNone then
    deltaTheta - 2 * Real.pi / 60 / 60 * autoRotateSpeed else deltaTheta
  let offset := pos - target
  let theta := sphTheta offset + deltaTheta
  let phi := sphPhi offset + deltaPhi
  let phi := clampR phi 0.01 (Real.pi - 0.01)
  let phi := clampR phi 0.000001 (Real.pi - 0.000001)
  let radius := sphRadius offset * scale
  let target' := target + panOffset
  let offset' := vecFromSpherical radius phi theta
  (target' + offset', target')

/-! ## Helper lemmas -/

/-- Counting in a filtered list: an element passing the filter keeps
its multiplicity, one failing it disappears. -/
theorem count_filter_ite {α : Type} [DecidableEq α] (l : List α) (a : α) (P : α → Bool) :
    (l.filter P).count a = if P a then l.count a else 0 := by
  induction l with
  | nil => simp
  | cons x xs ih =>
    by_cases hx : P x <;> by_cases hxa : x = a <;>
      simp [List.filter_cons, List.count_cons, hx, hxa, ih] <;> simp_all

/-- The tally fold of `calculateStats` counts occurrences of each type. -/
theorem foldl_bumpCount (d : List Segment) (init : String → ℕ) (t : String) :
    (d.foldl (fun counts segment => bumpCount counts segment.segment_type) init) t
      = init t + (d.filter (fun seg => seg.segment_type = t)).length := by
  induction d generalizing init with
  | nil => simp
  | cons x xs ih =>
    rw [List.foldl_cons, ih, List.filter_cons]
    by_cases h : x.segment_type = t
    · subst h
      simp [bumpCount]
      omega
    · simp [bumpCount, h, Ne.symm h]

/-! ## Concrete sample data -/

/-- The single-segment example of spec §8 (type `optimal`, indices
0–10, prices 100→110, `pct_change` 10), as a raw record. -/
def sampleOptimalRaw : RawSegment :=
  { segment_type := some "optimal", start_index := some 0, end_index := some 10,
    start_price := some 100, end_price := some 110, pct_change := some 10 }

/-- A raw record of type `negative`. -/
def sampleNegativeRaw : RawSegment :=
  { segment_type := some "negative", start_index := some 10, end_index := some 20,
    start_price := some 110, end_price := some 100, pct_change := some (-9) }

/-- A raw record whose six required fields are all present but whose
`segment_type` is the empty string — a falsy value in JavaScript. -/
def emptyTypeSegment : RawSegment :=
  { segment_type := some "", start_index := some 0, end_index := some 10,
    start_price := some 100, end_price := some 110, pct_change := some 10 }

/-! ## C7 — validateData -/

/-- Claim C7 fails as stated: the record `emptyTypeSegment` has all six
required fields *present*, yet `validateData` drops it (the source
tests `segment.segment_type` for truthiness, and `""` is falsy), so the
output is not "exactly the entries in which all … are present". -/
theorem validateData_presence_counterexample :
    allRequiredFieldsPresent emptyTypeSegment = true ∧
    validateData (JSInput.arr [emptyTypeSegment]) ≠ [emptyTypeSegment] := by
  constructor
  · decide
  · decide

/-- Claim C7 (amended): `validateData` returns `[]` (and cannot throw)
on a non-array input; on an array it returns exactly the entries whose
`segment_type` is present and truthy (non-empty) and whose other five
required fields are present, preserving relative order (sublist) and
multiplicity (no deduplication). -/
theorem validateData_spec :
    validateData JSInput.nonArray = [] ∧
    ∀ items : List RawSegment,
      (validateData (JSInput.arr items)).Sublist items ∧
      ∀ s : RawSegment,
        (validateData (JSInput.arr items)).count s =
          if isValidSegment s then items.count s else 0 := by
  refine ⟨rfl, fun items => ⟨List.filter_sublist items, fun s => ?_⟩⟩
  exact count_filter_ite items s isValidSegment

/-! ## C9 — filterSegmentsByType -/

/-- Claim C9: `filterSegmentsByType` with `"all"` is the identity
filter; with any other type it keeps exactly the segments whose tag
equals that type, stably (order preserved, multiplicities kept). -/
theorem filterSegmentsByType_spec :
    (∀ data : List RawSegment, filterSegmentsByType data "all" = data) ∧
    ∀ (data : List RawSegment) (type : String), type ≠ "all" →
      (filterSegmentsByType data type).Sublist data ∧
      ∀ s : RawSegment,
        (filterSegmentsByType data type).count s =
          if s.segment_type = some type then data.count s else 0 := by
  constructor
  · intro data
    simp [filterSegmentsByType]
  · intro data type htype
    rw [filterSegmentsByType, if_neg htype]
    refine ⟨List.filter_sublist data, fun s => ?_⟩
    simpa using count_filter_ite data s (fun seg => seg.segment_type = some type)

/-- Witness for C9's hypothesis `type ≠ "all"`: the non-identity branch
at the concrete type `"optimal"` on a two-element list. -/
theorem filterSegmentsByType_spec_witness :
    ("optimal" ≠ "all") ∧
    ((filterSegmentsByType [sampleOptimalRaw, sampleNegativeRaw] "optimal").Sublist
        [sampleOptimalRaw, sampleNegativeRaw] ∧
      ∀ s : RawSegment,
        (filterSegmentsByType [sampleOptimalRaw, sampleNegativeRaw] "optimal").count s =
          if s.segment_type = some "optimal" then
            ([sampleOptimalRaw, sampleNegativeRaw] : List RawSegment).count s
          else 0) :=
  ⟨by decide, filterSegmentsByType_spec.2 [sampleOptimalRaw, sampleNegativeRaw] "optimal"
    (by decide)⟩

/-! ## C2 — empty validated list on load -/

/-- Claim C2 fails as stated: a load whose parsed array is empty (zero
valid segments after validation) does not rebuild an empty structure —
`loadFromText` returns `null` (second component `none`) and leaves the
state unchanged, retaining the prior visualization. -/
theorem loadFromText_emptyValidation_counterexample :
    validateData (JSInput.arr []) = [] ∧
    loadFromText initState (some (JSInput.arr [])) = (initState, none) := by
  constructor
  · decide
  · decide

/-- Claim C2 (amended): when validation leaves zero valid segments,
`loadFromText` aborts (returns `null`, state unchanged, prior
visualization retained); when validation is non-empty, it always
rebuilds, handing the type-filtered list — possibly empty — to
`rebuildDNA`, so only the empty-after-*type-filter* state is rendered
as an empty, valid structure. -/
theorem loadFromText_emptyValidation_aborts :
    (∀ (st : VisState) (raw : JSInput), validateData raw = [] →
      loadFromText st (some raw) = (st, none)) ∧
    (∀ (st : VisState) (raw : JSInput), validateData raw ≠ [] →
      (loadFromText st (some raw)).2 =
        some (filterSegmentsByType (validateData raw) st.selectedType)) := by
  constructor
  · intro st raw h
    simp [loadFromText, h]
  · intro st raw h
    simp [loadFromText, h]

/-- Witness for C2's hypotheses: the aborting branch on the empty
array, and the rebuilding branch on a one-segment array. -/
theorem loadFromText_emptyValidation_aborts_witness :
    (loadFromText initState (some (JSInput.arr [])) = (initState, none)) ∧
    ((loadFromText initState (some (JSInput.arr [sampleOptimalRaw]))).2 =
      some (filterSegmentsByType (validateData (JSInput.arr [sampleOptimalRaw]))
        initState.selectedType)) :=
  ⟨loadFromText_emptyValidation_aborts.1 initState (JSInput.arr []) (by decide),
   loadFromText_emptyValidation_aborts.2 initState (JSInput.arr [sampleOptimalRaw])
     (by decide)⟩

/-! ## C10 — default type filter -/

/-- Claim C10: the type filter defaults to `"optimal"` at construction,
so a first `loadFromText` (before any `setSelectedType`) hands only
segments tagged `"optimal"` to the rebuild, while `lastLoadedData`
stores the full validated, unfiltered list (whenever the load
succeeds). -/
theorem loadFromText_default_type_filter :
    initState.selectedType = "optimal" ∧
    ∀ raw : JSInput,
      (∀ s ∈ ((loadFromText initState (some raw)).2.getD []),
        s.segment_type = some "optimal") ∧
      (validateData raw ≠ [] →
        (loadFromText initState (some raw)).1.lastLoadedData = some (validateData raw)) := by
  refine ⟨rfl, fun raw => ⟨?_, ?_⟩⟩
  · by_cases h : validateData raw = []
    · simp [loadFromText, h]
    · have hlen : ¬(validateData raw).length = 0 := by
        simpa [List.length_eq_zero] using h
      intro s hs
      simp only [loadFromText] at hs
      rw [if_neg hlen] at hs
      simp only [Option.getD_some] at hs
      rw [filterSegmentsByType, if_neg (by decide : (initState.selectedType ≠ "all"))] at hs
      simpa using (List.of_mem_filter hs)
  · intro h
    simp [loadFromText, h]

/-- Witness for C10's hypothesis: a successful first load of a mixed
two-segment array stores both validated segments while building from
the optimal one only. -/
theorem loadFromText_default_type_filter_witness :
    initState.selectedType = "optimal" ∧
    (∀ s ∈ ((loadFromText initState
        (some (JSInput.arr [sampleOptimalRaw, sampleNegativeRaw]))).2.getD []),
      s.segment_type = some "optimal") ∧
    (loadFromText initState
        (some (JSInput.arr [sampleOptimalRaw, sampleNegativeRaw]))).1.lastLoadedData =
      some (validateData (JSInput.arr [sampleOptimalRaw, sampleNegativeRaw])) :=
  ⟨loadFromText_default_type_filter.1,
   (loadFromText_default_type_filter.2 (JSInput.arr [sampleOptimalRaw, sampleNegativeRaw])).1,
   (loadFromText_default_type_filter.2 (JSInput.arr [sampleOptimalRaw, sampleNegativeRaw])).2
     (by decide)⟩

/-! ## C8 — calculateStats -/

/-- The two-segment dataset of spec §8 (`pct_change` 4 and −2), as
validated segments. -/
def statsExample : List Segment :=
  [ { segment_type := "optimal", start_index := 0, end_index := 10,
      start_price := 100, end_price := 110, pct_change := 4 },
    { segment_type := "negative", start_index := 10, end_index := 20,
      start_price := 110, end_price := 100, pct_change := -2 } ]

/-- Claim C8: on a non-empty dataset, `calculateStats` reports the list
length, the per-type occurrence counts, and the mean absolute percent
change formatted to two decimals with a `%` suffix; on an empty or
absent dataset it returns the no-data signal `null`.  In particular the
spec §8 example yields `totalSegments = 2`,
`typeCounts = {optimal: 1, negative: 1}` and volatility `"3.00%"`. -/
theorem calculateStats_spec :
    calculateStats none none = none ∧
    (∀ last, calculateStats (some []) last = none) ∧
    calculateStats none (some []) = none ∧
    (∀ (d : List Segment) (last : Option (List Segment)), d ≠ [] →
      ∃ s : Stats, calculateStats (some d) last = some s ∧
        s.totalSegments = d.length ∧
        (∀ t, s.typeCounts t = (d.filter (fun seg => seg.segment_type = t)).length) ∧
        s.volatility =
          toFixed2 ((d.map (fun seg => |seg.pct_change|)).sum / (d.length : ℚ)) ++ "%") ∧
    (∃ s : Stats, calculateStats (some statsExample) none = some s ∧
      s.totalSegments = 2 ∧ s.typeCounts "optimal" = 1 ∧ s.typeCounts "negative" = 1 ∧
      s.volatility = "3.00%") := by
  have hmain : ∀ (d : List Segment) (last : Option (List Segment)), d ≠ [] →
      ∃ s : Stats, calculateStats (some d) last = some s ∧
        s.totalSegments = d.length ∧
        (∀ t, s.typeCounts t = (d.filter (fun seg => seg.segment_type = t)).length) ∧
        s.volatility =
          toFixed2 ((d.map (fun seg => |seg.pct_change|)).sum / (d.length : ℚ)) ++ "%" := by
    intro d last h
    have hlen : ¬d.length = 0 := by simpa [List.length_eq_zero] using h
    refine ⟨{ totalSegments := d.length,
              typeCounts := d.foldl
                (fun counts segment => bumpCount counts segment.segment_type) (fun _ => 0),
              volatility := toFixed2 ((d.map (fun seg => |seg.pct_change|)).sum /
                (d.length : ℚ)) ++ "%" }, ?_, rfl, fun t => ?_, rfl⟩
    · simp only [calculateStats]
      rw [if_neg hlen]
    · simpa using foldl_bumpCount d (fun _ => 0) t
  refine ⟨rfl, fun last => rfl, rfl, hmain, ?_⟩
  obtain ⟨s, hs, h1, h2, h3⟩ := hmain statsExample none (by decide)
  refine ⟨s, hs, h1, ?_, ?_, ?_⟩
  · rw [h2]; decide
  · rw [h2]; decide
  · rw [h3]
    have : ((statsExample.map (fun seg => |seg.pct_change|)).sum /
        (statsExample.length : ℚ)) = 3 := by
      simp [statsExample]
      norm_num
    rw [this]
    norm_num [toFixed2, pad2, round_eq]
    rfl

/-- Witness for C8's hypothesis `d ≠ []`: the spec §8 dataset. -/
theorem calculateStats_spec_witness :
    statsExample ≠ [] ∧
    ∃ s : Stats, calculateStats (some statsExample) none = some s ∧
      s.totalSegments = statsExample.length ∧
      (∀ t, s.typeCounts t =
        (statsExample.filter (fun seg => seg.segment_type = t)).length) ∧
      s.volatility = toFixed2 ((statsExample.map (fun seg => |seg.pct_change|)).sum /
        (statsExample.length : ℚ)) ++ "%" :=
  ⟨by decide, calculateStats_spec.2.2.2.1 statsExample none (by decide)⟩

/-! ## C1 — empty segment list -/

/-- The spec §8 example segment as a validated segment (type
`optimal`, indices 0–10, prices 100→110, `pct_change` 10). -/
def sampleOptimal : Segment :=
  { segment_type := "optimal", start_index := 0, end_index := 10,
    start_price := 100, end_price := 110, pct_change := 10 }

/-- Claim C1 fails as stated: `createDNAHelix([])` returns early
(lines 112–115) with a group containing zero rung connectors but also
*zero* backbone tube curves — not the two degenerate backbone curves
the claim describes. -/
theorem createDNAHelix_empty_counterexample :
    (createDNAHelix defaultConfig []).rungs.length = 0 ∧
    (createDNAHelix defaultConfig []).backbones.length = 0 ∧
    (createDNAHelix defaultConfig []).backbones.length ≠ 2 := by
  refine ⟨rfl, rfl, ?_⟩
  intro h
  simp [createDNAHelix] at h

/-- Claim C1 (amended): for the empty segment list, `createDNAHelix`
returns, without throwing, an empty but valid renderable group — zero
rung connectors, zero pulse effects and zero backbone curves (the
function returns before any backbone is built). -/
theorem createDNAHelix_empty_group :
    ∀ config : HelixConfig,
      createDNAHelix config [] =
        { backbones := [], rungs := [], segmentPulses := [],
          position := ⟨0, 0, 0⟩, rotationY := 0 } :=
  fun _ => rfl

/-! ## C3 — configuration fields driving the geometry -/

/-- Claim C3 fails as stated: the generator reads neither
`config.height` nor `config.pointsPerTurn` — both are shadowed by the
local constants `200` (line 119) and `32` (line 130) — so changing
either of those two configuration fields leaves the produced geometry
unchanged, contradicting "changing any of these five configuration
fields changes the geometry produced by the next rebuild". -/
theorem createDNAHelix_config_counterexample :
    createDNAHelix { defaultConfig with height := 100 } [sampleOptimal] =
      createDNAHelix defaultConfig [sampleOptimal] ∧
    createDNAHelix { defaultConfig with pointsPerTurn := 8 } [sampleOptimal] =
      createDNAHelix defaultConfig [sampleOptimal] ∧
    ({ defaultConfig with height := 100 } : HelixConfig).height ≠ defaultConfig.height ∧
    ({ defaultConfig with pointsPerTurn := 8 } : HelixConfig).pointsPerTurn ≠
      defaultConfig.pointsPerTurn := by
  refine ⟨rfl, rfl, ?_, by decide⟩
  show (100 : ℝ) ≠ 200
  norm_num

/-- Claim C3 (amended): for every configuration and non-empty validated
segment list, the two backbone curves are sampled at
`i = 0 … turns·32` with `t = i/(turns·32)`, vertical position
`y = 200·(0.5 − t)` and azimuth `2π·turns·t` (strand B offset by `π`),
at radius `helixRadius` and tube thickness `backboneThickness`;
`turns`, `radius` and `backboneThickness` come from the configuration,
while the height (200) and the per-turn sample count (32) are fixed
constants that ignore `config.height` and `config.pointsPerTurn`. -/
theorem createDNAHelix_backbone_sampling (config : HelixConfig) (data : List Segment)
    (hdata : data ≠ []) :
    ∃ bb1 bb2 : Backbone,
      (createDNAHelix config data).backbones = [bb1, bb2] ∧
      bb1.tubeRadius = config.backboneThickness ∧
      bb2.tubeRadius = config.backboneThickness ∧
      bb1.tubularSegments = config.helixTurns * 32 ∧
      bb2.tubularSegments = config.helixTurns * 32 ∧
      bb1.points.length = config.helixTurns * 32 + 1 ∧
      bb2.points.length = config.helixTurns * 32 + 1 ∧
      (∀ (i : ℕ) (h : i < bb1.points.length),
        bb1.points.get ⟨i, h⟩ =
          ⟨config.helixRadius * Real.cos (2 * Real.pi * (config.helixTurns : ℝ) *
              ((i : ℝ) / ((config.helixTurns * 32 : ℕ) : ℝ))),
           200 * (0.5 - (i : ℝ) / ((config.helixTurns * 32 : ℕ) : ℝ)),
           config.helixRadius * Real.sin (2 * Real.pi * (config.helixTurns : ℝ) *
              ((i : ℝ) / ((config.helixTurns * 32 : ℕ) : ℝ)))⟩) ∧
      (∀ (i : ℕ) (h : i < bb2.points.length),
        bb2.points.get ⟨i, h⟩ =
          ⟨config.helixRadius * Real.cos (2 * Real.pi * (config.helixTurns : ℝ) *
              ((i : ℝ) / ((config.helixTurns * 32 : ℕ) : ℝ)) + Real.pi),
           200 * (0.5 - (i : ℝ) / ((config.helixTurns * 32 : ℕ) : ℝ)),
           config.helixRadius * Real.sin (2 * Real.pi * (config.helixTurns : ℝ) *
              ((i : ℝ) / ((config.helixTurns * 32 : ℕ) : ℝ)) + Real.pi)⟩) := by
  have hlen : ¬data.length = 0 := by simpa [List.length_eq_zero] using hdata
  rw [createDNAHelix, if_neg hlen]
  refine ⟨_, _, rfl, rfl, rfl, rfl, rfl, by simp, by simp, ?_, ?_⟩ <;>
    · intro i h
      simp only [List.length_map, List.length_range] at h
      simp [List.get_eq_getElem]

/-- Witness for C3's hypothesis `data ≠ []`: the default configuration
and the one-segment example list. -/
theorem createDNAHelix_backbone_sampling_witness :
    ([sampleOptimal] : List Segment) ≠ [] ∧
    ∃ bb1 bb2 : Backbone,
      (createDNAHelix defaultConfig [sampleOptimal]).backbones = [bb1, bb2] ∧
      bb1.tubeRadius = defaultConfig.backboneThickness ∧
      bb2.tubeRadius = defaultConfig.backboneThickness ∧
      bb1.tubularSegments = defaultConfig.helixTurns * 32 ∧
      bb2.tubularSegments = defaultConfig.helixTurns * 32 ∧
      bb1.points.length = defaultConfig.helixTurns * 32 + 1 ∧
      bb2.points.length = defaultConfig.helixTurns * 32 + 1 ∧
      (∀ (i : ℕ) (h : i < bb1.points.length),
        bb1.points.get ⟨i, h⟩ =
          ⟨defaultConfig.helixRadius * Real.cos (2 * Real.pi * (defaultConfig.helixTurns : ℝ) *
              ((i : ℝ) / ((defaultConfig.helixTurns * 32 : ℕ) : ℝ))),
           200 * (0.5 - (i : ℝ) / ((defaultConfig.helixTurns * 32 : ℕ) : ℝ)),
           defaultConfig.helixRadius * Real.sin (2 * Real.pi * (defaultConfig.helixTurns : ℝ) *
              ((i : ℝ) / ((defaultConfig.helixTurns * 32 : ℕ) : ℝ)))⟩) ∧
      (∀ (i : ℕ) (h : i < bb2.points.length),
        bb2.points.get ⟨i, h⟩ =
          ⟨defaultConfig.helixRadius * Real.cos (2 * Real.pi * (defaultConfig.helixTurns : ℝ) *
              ((i : ℝ) / ((defaultConfig.helixTurns * 32 : ℕ) : ℝ)) + Real.pi),
           200 * (0.5 - (i : ℝ) / ((defaultConfig.helixTurns * 32 : ℕ) : ℝ)),
           defaultConfig.helixRadius * Real.sin (2 * Real.pi * (defaultConfig.helixTurns : ℝ) *
              ((i : ℝ) / ((defaultConfig.helixTurns * 32 : ℕ) : ℝ)) + Real.pi)⟩) :=
  ⟨by decide, createDNAHelix_backbone_sampling defaultConfig [sampleOptimal] (by decide)⟩

/-! ## C5 — rung visual parameters -/

/-- Claim C5: every rendered rung has base radius
`0.3 + min(0.5, |pctChange|·0.03)`, multiplied by the length scale
factor `min(1.5, log10(max(1, endIndex − startIndex)) + 0.5)` to give
both cylinder radii, and emissive intensity
`min(0.4, |pctChange|·0.03 + 0.1)`; in particular, for the spec §8
segment with `pct_change = 10` the emissive intensity is exactly
`0.4`. -/
theorem rung_visual_parameters :
    (∀ (config : HelixConfig) (data : List Segment) (i : ℕ) (h : i < data.length),
      ∃ hr : i < (createDNAHelix config data).rungs.length,
        ((createDNAHelix config data).rungs.get ⟨i, hr⟩).topRadius =
          (0.3 + min 0.5 (((|(data.get ⟨i, h⟩).pct_change| : ℚ) : ℝ) * 0.03)) *
            min 1.5 (Real.logb 10
              (((max 1 ((data.get ⟨i, h⟩).end_index - (data.get ⟨i, h⟩).start_index) : ℤ) : ℝ))
              + 0.5) ∧
        ((createDNAHelix config data).rungs.get ⟨i, hr⟩).bottomRadius =
          ((createDNAHelix config data).rungs.get ⟨i, hr⟩).topRadius ∧
        ((createDNAHelix config data).rungs.get ⟨i, hr⟩).emissiveIntensity =
          min 0.4 (((|(data.get ⟨i, h⟩).pct_change| : ℚ) : ℝ) * 0.03 + 0.1)) ∧
    (∃ hr : 0 < (createDNAHelix defaultConfig [sampleOptimal]).rungs.length,
      ((createDNAHelix defaultConfig [sampleOptimal]).rungs.get ⟨0, hr⟩).emissiveIntensity
        = 0.4) := by
  have main : ∀ (config : HelixConfig) (data : List Segment) (i : ℕ) (h : i < data.length),
      ∃ hr : i < (createDNAHelix config data).rungs.length,
        ((createDNAHelix config data).rungs.get ⟨i, hr⟩).topRadius =
          (0.3 + min 0.5 (((|(data.get ⟨i, h⟩).pct_change| : ℚ) : ℝ) * 0.03)) *
            min 1.5 (Real.logb 10
              (((max 1 ((data.get ⟨i, h⟩).end_index - (data.get ⟨i, h⟩).start_index) : ℤ) : ℝ))
              + 0.5) ∧
        ((createDNAHelix config data).rungs.get ⟨i, hr⟩).bottomRadius =
          ((createDNAHelix config data).rungs.get ⟨i, hr⟩).topRadius ∧
        ((createDNAHelix config data).rungs.get ⟨i, hr⟩).emissiveIntensity =
          min 0.4 (((|(data.get ⟨i, h⟩).pct_change| : ℚ) : ℝ) * 0.03 + 0.1) := by
    intro config data i h
    have hlen : ¬data.length = 0 := by
      intro h0
      rw [h0] at h
      omega
    have hr : i < (createDNAHelix config data).rungs.length := by
      rw [createDNAHelix, if_neg hlen]
      simpa using h
    refine ⟨hr, ?_⟩
    have hget : (createDNAHelix config data).rungs.get ⟨i, hr⟩ =
        buildRung config.helixRadius config.helixTurns data.length i (data.get ⟨i, h⟩) := by
      have : (createDNAHelix config data).rungs =
          data.enum.map (fun p =>
            buildRung config.helixRadius config.helixTurns data.length p.1 p.2) := by
        rw [createDNAHelix, if_neg hlen]
      simp [this, List.get_eq_getElem]
    rw [hget]
    refine ⟨?_, rfl, rfl⟩
    simp only [buildRung, Real.logb]
  refine ⟨main, ?_⟩
  obtain ⟨hr, -, -, hemis⟩ := main defaultConfig [sampleOptimal] 0 (by simp)
  refine ⟨hr, ?_⟩
  rw [hemis]
  norm_num [sampleOptimal]

/-- Witness for C5's hypothesis `i < data.length`: the first rung of
the one-segment example list. -/
theorem rung_visual_parameters_witness :
    (0 < ([sampleOptimal] : List Segment).length) ∧
    ∃ hr : 0 < (createDNAHelix defaultConfig [sampleOptimal]).rungs.length,
      ((createDNAHelix defaultConfig [sampleOptimal]).rungs.get ⟨0, hr⟩).topRadius =
        (0.3 + min 0.5 (((|sampleOptimal.pct_change| : ℚ) : ℝ) * 0.03)) *
          min 1.5 (Real.logb 10
            (((max 1 (sampleOptimal.end_index - sampleOptimal.start_index) : ℤ) : ℝ)) + 0.5) ∧
      ((createDNAHelix defaultConfig [sampleOptimal]).rungs.get ⟨0, hr⟩).bottomRadius =
        ((createDNAHelix defaultConfig [sampleOptimal]).rungs.get ⟨0, hr⟩).topRadius ∧
      ((createDNAHelix defaultConfig [sampleOptimal]).rungs.get ⟨0, hr⟩).emissiveIntensity =
        min 0.4 (((|sampleOptimal.pct_change| : ℚ) : ℝ) * 0.03 + 0.1) :=
  ⟨by decide, rung_visual_parameters.1 defaultConfig [sampleOptimal] 0 (by decide)⟩

/-! ## C6 — pulse effects -/

/-- A segment in the one-pulse band (`5 < |pct_change| ≤ 8`). -/
def sampleMidPulse : Segment :=
  { segment_type := "negative", start_index := 0, end_index := 3,
    start_price := 100, end_price := 94, pct_change := -6 }

/-- Claim C6: per rendered segment, the group carries exactly zero
pulse spheres when `|pctChange| ≤ 5`, one when `5 < |pctChange| ≤ 8`,
and two when `|pctChange| > 8`; whenever a pulse is attached, the first
one has sphere radius `0.8 + |pctChange|·0.05`. -/
theorem pulse_attachment_rule :
    ∀ (config : HelixConfig) (data : List Segment) (i : ℕ) (h : i < data.length),
      ∃ hp : i < (createDNAHelix config data).segmentPulses.length,
        ((createDNAHelix config data).segmentPulses.get ⟨i, hp⟩).length =
          (if 8 < |(data.get ⟨i, h⟩).pct_change| then 2
           else if 5 < |(data.get ⟨i, h⟩).pct_change| then 1 else 0) ∧
        (5 < |(data.get ⟨i, h⟩).pct_change| →
          ∃ p : Pulse,
            ((createDNAHelix config data).segmentPulses.get ⟨i, hp⟩).head? = some p ∧
            p.radius = 0.8 + ((|(data.get ⟨i, h⟩).pct_change| : ℚ) : ℝ) * 0.05) := by
  intro config data i h
  have hlen : ¬data.length = 0 := by
    intro h0
    rw [h0] at h
    omega
  have hp : i < (createDNAHelix config data).segmentPulses.length := by
    rw [createDNAHelix, if_neg hlen]
    simpa using h
  have hget : (createDNAHelix config data).segmentPulses.get ⟨i, hp⟩ =
      buildPulses (data.get ⟨i, h⟩)
        (buildRung config.helixRadius config.helixTurns data.length i
          (data.get ⟨i, h⟩)).position := by
    have : (createDNAHelix config data).segmentPulses =
        data.enum.map (fun p =>
          buildPulses p.2
            (buildRung config.helixRadius config.helixTurns data.length p.1 p.2).position) := by
      rw [createDNAHelix, if_neg hlen]
    simp [this, List.get_eq_getElem]
  refine ⟨hp, ?_, ?_⟩
  · rw [hget, buildPulses]
    simp only [List.get_eq_getElem]
    by_cases h8 : (8 : ℚ) < |data[i].pct_change|
    · have h5 : (5 : ℚ) < |data[i].pct_change| := lt_trans (by norm_num) h8
      simp [h5, h8]
    · by_cases h5 : (5 : ℚ) < |data[i].pct_change|
      · simp [h5, h8]
      · simp [h5, h8]
  · intro h5
    rw [hget, buildPulses]
    simp only [List.get_eq_getElem]
    have h5' : (5 : ℚ) < |data[i].pct_change| := by simpa using h5
    by_cases h8 : (8 : ℚ) < |data[i].pct_change|
    · rw [if_pos h5', if_pos h8]
      exact ⟨_, rfl, rfl⟩
    · rw [if_pos h5', if_neg h8]
      exact ⟨_, rfl, rfl⟩

/-- Witness for C6's hypothesis `i < data.length`: a segment with
`pct_change = −6` gets exactly one pulse of radius `0.8 + 6·0.05`. -/
theorem pulse_attachment_rule_witness :
    (0 < ([sampleMidPulse] : List Segment).length) ∧
    ∃ hp : 0 < (createDNAHelix defaultConfig [sampleMidPulse]).segmentPulses.length,
      ((createDNAHelix defaultConfig [sampleMidPulse]).segmentPulses.get ⟨0, hp⟩).length =
        (if 8 < |(([sampleMidPulse] : List Segment).get ⟨0, by simp⟩).pct_change| then 2
         else if 5 < |(([sampleMidPulse] : List Segment).get ⟨0, by simp⟩).pct_change| then 1
         else 0) ∧
      (5 < |(([sampleMidPulse] : List Segment).get ⟨0, by simp⟩).pct_change| →
        ∃ p : Pulse,
          ((createDNAHelix defaultConfig [sampleMidPulse]).segmentPulses.get
            ⟨0, hp⟩).head? = some p ∧
          p.radius = 0.8 +
            ((|(([sampleMidPulse] : List Segment).get ⟨0, by simp⟩).pct_change| : ℚ) : ℝ)
              * 0.05) :=
  ⟨by simp, pulse_attachment_rule defaultConfig [sampleMidPulse] 0 (by simp)⟩

/-! ## C4 — orbit camera round-trip -/

/-- A clamp whose bounds already hold is the identity. -/
theorem clampR_eq_self {x lo hi : ℝ} (hlo : lo ≤ x) (hhi : x ≤ hi) : clampR x lo hi = x := by
  rw [clampR, min_eq_right hhi, max_eq_right hlo]

/-- Cartesian → spherical → Cartesian, with no deltas, is the identity
on every non-zero offset whose polar angle stays strictly between the
poles (here: anywhere in `[0.01, π − 0.01]`). -/
theorem spherical_roundTrip (v : Vec3) (h0 : sphRadius v ≠ 0)
    (h1 : 0.01 ≤ sphPhi v) (h2 : sphPhi v ≤ Real.pi - 0.01) :
    vecFromSpherical (sphRadius v) (sphPhi v) (sphTheta v) = v := by
  have hrnn : 0 ≤ sphRadius v := Real.sqrt_nonneg _
  have hr : 0 < sphRadius v := lt_of_le_of_ne hrnn (Ne.symm h0)
  have hsq : sphRadius v ^ 2 = v.x * v.x + v.y * v.y + v.z * v.z := by
    rw [sphRadius]
    exact Real.sq_sqrt (by nlinarith [sq_nonneg v.x, sq_nonneg v.y, sq_nonneg v.z])
  have hyabs : |v.y| ≤ sphRadius v := by
    have h1' : |v.y| = Real.sqrt (v.y * v.y) := (Real.sqrt_mul_self_eq_abs v.y).symm
    rw [h1', sphRadius]
    exact Real.sqrt_le_sqrt (by nlinarith [sq_nonneg v.x, sq_nonneg v.z])
  have hc1 : -1 ≤ v.y / sphRadius v := by
    rw [le_div_iff₀ hr]
    have := (abs_le.mp hyabs).1
    linarith
  have hc2 : v.y / sphRadius v ≤ 1 := by
    rw [div_le_one hr]
    exact (abs_le.mp hyabs).2
  have hphi : sphPhi v = Real.arccos (v.y / sphRadius v) := by
    rw [sphPhi, if_neg h0, clampR_eq_self hc1 hc2]
  have hxz : 0 < v.x * v.x + v.z * v.z := by
    rcases lt_or_eq_of_le (add_nonneg (mul_self_nonneg v.x) (mul_self_nonneg v.z)) with h | h
    · exact h
    · exfalso
      have hx0 : v.x = 0 := by nlinarith [sq_nonneg v.x, sq_nonneg v.z]
      have hz0 : v.z = 0 := by nlinarith [sq_nonneg v.x, sq_nonneg v.z]
      have hry : sphRadius v = |v.y| := by
        rw [sphRadius, hx0, hz0]
        simpa using Real.sqrt_mul_self_eq_abs v.y
      have hy0 : v.y ≠ 0 := by
        intro hy
        rw [hry, hy] at h0
        simp at h0
      rcases lt_or_gt_of_ne hy0 with hneg | hpos
      · have : sphPhi v = Real.pi := by
          rw [hphi, hry, abs_of_neg hneg]
          have : v.y / -v.y = -1 := by
            field_simp
          rw [this, Real.arccos_neg_one]
        rw [this] at h2
        linarith
      · have : sphPhi v = 0 := by
          rw [hphi, hry, abs_of_pos hpos]
          have : v.y / v.y = 1 := by
            field_simp
          rw [this, Real.arccos_one]
        rw [this] at h1
        norm_num at h1
  have hA : 0 < Real.sqrt (v.x * v.x + v.z * v.z) := Real.sqrt_pos.mpr hxz
  have hcos : Real.cos (sphPhi v) = v.y / sphRadius v := by
    rw [hphi]
    exact Real.cos_arccos hc1 hc2
  have hsin : sphRadius v * Real.sin (sphPhi v) = Real.sqrt (v.x * v.x + v.z * v.z) := by
    rw [hphi, Real.sin_arccos]
    rw [show sphRadius v = Real.sqrt (sphRadius v ^ 2) from (Real.sqrt_sq hr.le).symm]
    rw [← Real.sqrt_mul (by positivity)]
    congr 1
    have : sphRadius v ^ 2 ≠ 0 := by positivity
    field_simp
    nlinarith [hsq, Real.sq_sqrt (by nlinarith [sq_nonneg v.x, sq_nonneg v.y, sq_nonneg v.z] :
      (0:ℝ) ≤ v.x * v.x + v.y * v.y + v.z * v.z)]
  have hw : (⟨v.z, v.x⟩ : ℂ) ≠ 0 := by
    intro hzero
    rw [Complex.ext_iff] at hzero
    simp at hzero
    nlinarith [hzero.1, hzero.2]
  have habs : Complex.abs ⟨v.z, v.x⟩ = Real.sqrt (v.x * v.x + v.z * v.z) := by
    rw [Complex.abs_apply, Complex.normSq_apply]
    congr 1
    ring
  have htheta : sphTheta v = Complex.arg ⟨v.z, v.x⟩ := by
    rw [sphTheta, if_neg h0, atan2]
  have hsinT : Real.sin (sphTheta v) = v.x / Real.sqrt (v.x * v.x + v.z * v.z) := by
    rw [htheta, Complex.sin_arg, habs]
  have hcosT : Real.cos (sphTheta v) = v.z / Real.sqrt (v.x * v.x + v.z * v.z) := by
    rw [htheta, Complex.cos_arg hw, habs]
  ext
  · show sphRadius v * Real.sin (sphPhi v) * Real.sin (sphTheta v) = v.x
    rw [hsin, hsinT]
    field_simp
  · show sphRadius v * Real.cos (sphPhi v) = v.y
    rw [hcos]
    field_simp
  · show sphRadius v * Real.sin (sphPhi v) * Real.cos (sphTheta v) = v.z
    rw [hsin, hcosT]
    field_simp

/-- Claim C4: each `OrbitControls.update` tick converts the camera
offset to spherical coordinates, adds the pending deltas, clamps the
polar angle into `[0.01, π − 0.01]` (and through `makeSafe`) before
reconverting; consequently, for every non-zero offset whose polar
angle already lies in `[0.01, π − 0.01]` and with no pending input
(zero deltas, zero pan, unit zoom scale, auto-rotate off), the
Cartesian → spherical → Cartesian round-trip performed by `update`
reproduces the original camera position and target exactly. -/
theorem orbitUpdate_roundTrip (pos target : Vec3)
    (h0 : sphRadius (pos - target) ≠ 0)
    (h1 : 0.01 ≤ sphPhi (pos - target))
    (h2 : sphPhi (pos - target) ≤ Real.pi - 0.01) :
    orbitUpdate false true 2 pos target 0 0 1 ⟨0, 0, 0⟩ = (pos, target) := by
  simp only [orbitUpdate, Bool.false_and, Bool.false_eq_true, if_false, add_zero, mul_one]
  rw [clampR_eq_self h1 h2]
  rw [clampR_eq_self (le_trans (by norm_num) h1)
    (le_trans h2 (sub_le_sub_left (by norm_num) Real.pi))]
  rw [spherical_roundTrip _ h0 h1 h2]
  have htgt : target + (⟨0, 0, 0⟩ : Vec3) = target := by
    rw [Vec3.add_def]
    exact Vec3.ext (by simp) (by simp) (by simp)
  rw [htgt]
  have hoff : target + (pos - target) = pos := by
    rw [Vec3.sub_def, Vec3.add_def]
    exact Vec3.ext (by ring) (by ring) (by ring)
  rw [hoff]

/-- Witness for C4's hypotheses: the unit offset along the x-axis,
whose polar angle is `π/2`. -/
theorem orbitUpdate_roundTrip_witness :
    (sphRadius ((⟨1, 0, 0⟩ : Vec3) - ⟨0, 0, 0⟩) ≠ 0 ∧
      0.01 ≤ sphPhi ((⟨1, 0, 0⟩ : Vec3) - ⟨0, 0, 0⟩) ∧
      sphPhi ((⟨1, 0, 0⟩ : Vec3) - ⟨0, 0, 0⟩) ≤ Real.pi - 0.01) ∧
    orbitUpdate false true 2 ⟨1, 0, 0⟩ ⟨0, 0, 0⟩ 0 0 1 ⟨0, 0, 0⟩ =
      ((⟨1, 0, 0⟩ : Vec3), (⟨0, 0, 0⟩ : Vec3)) := by
  have hsub : (⟨1, 0, 0⟩ : Vec3) - ⟨0, 0, 0⟩ = ⟨1, 0, 0⟩ := by
    rw [Vec3.sub_def]
    exact Vec3.ext (by norm_num) (by norm_num) (by norm_num)
  have hrad : sphRadius (⟨1, 0, 0⟩ : Vec3) = 1 := by
    rw [sphRadius]
    norm_num
  have hphi : sphPhi (⟨1, 0, 0⟩ : Vec3) = Real.pi / 2 := by
    rw [sphPhi, if_neg (by rw [hrad]; norm_num)]
    rw [show clampR ((⟨1, 0, 0⟩ : Vec3).y / sphRadius ⟨1, 0, 0⟩) (-1) 1 = 0 by
      rw [hrad]; norm_num [clampR]]
    exact Real.arccos_zero
  have h0 : sphRadius ((⟨1, 0, 0⟩ : Vec3) - ⟨0, 0, 0⟩) ≠ 0 := by
    rw [hsub, hrad]
    norm_num
  have h1 : 0.01 ≤ sphPhi ((⟨1, 0, 0⟩ : Vec3) - ⟨0, 0, 0⟩) := by
    rw [hsub, hphi]
    have := Real.pi_gt_three
    linarith
  have h2 : sphPhi ((⟨1, 0, 0⟩ : Vec3) - ⟨0, 0, 0⟩) ≤ Real.pi - 0.01 := by
    rw [hsub, hphi]
    have := Real.pi_gt_three
    linarith
  exact ⟨⟨h0, h1, h2⟩, orbitUpdate_roundTrip ⟨1, 0, 0⟩ ⟨0, 0, 0⟩ h0 h1 h2⟩
